import Mathlib

/-!
Verification of the local-filesystem backend (`file` package): the
context-respecting I/O bridge (`ContextRespectingIoFile`, `FileAdapter`)
and the change watcher (`FileWatcher`).

The Go source is shallowly embedded: the filesystem is an association
list from path to byte content, an open OS file is a (path, position)
pair, and the race between a blocking OS call and the caller's
context cancellation is made explicit as a `RaceOutcome` parameter
(the source resolves it with a `select` over channels).  Bytes are
modelled as `Nat`; the byte-ness of values is irrelevant to every
property proved here.
-/

set_option autoImplicit false

namespace FilesystemFile

/-- Errors observable by callers.  `cancelled` models `ctx.Err()`;
`eof` models `io.EOF`; `noEnt` models a failed `os.Open`; the rest are
error values injected by environments to model failing OS calls. -/
inductive Err where
  | cancelled
  | eof
  | noEnt
  | invalidArg
  | newWatcherFailed
  | addWatchFailed
  | symlinkFuel
  | statFailed
  | readlinkFailed
  | readDirFailed
  | openFailed
  | removeFailed
  | closeFailed
deriving DecidableEq

/-- Which side of the `select` in the bridge wins: the context's
`Done` channel (`cancelled`) or the worker's result channel
(`completed`).  The race is non-deterministic in the source, so every
theorem quantifies over the outcome or fixes the one the claim is
about. -/
inductive RaceOutcome where
  | cancelled
  | completed
deriving DecidableEq

/-- The filesystem: a finite map from path to file content. -/
abbrev FS := List (String × List Nat)

/-- Content of the file at `p`, if it exists. -/
def fsGet : FS → String → Option (List Nat)
  | [], _ => none
  | (k, v) :: t, p => if k = p then some v else fsGet t p

/-- Set (create or overwrite) the content of the file at `p`. -/
def fsSet : FS → String → List Nat → FS
  | [], p, v => [(p, v)]
  | (k, w) :: t, p, v => if k = p then (p, v) :: t else (k, w) :: fsSet t p v

theorem fsGet_fsSet_self (fs : FS) (p : String) (v : List Nat) :
    fsGet (fsSet fs p v) p = some v := by
  induction fs with
  | nil => simp [fsGet, fsSet]
  | cons kv t ih =>
    obtain ⟨k, w⟩ := kv
    by_cases h : k = p
    · simp [fsGet, fsSet, h]
    · simp [fsGet, fsSet, h, ih]

/-- Model of `os.O_WRONLY`. -/
def O_WRONLY : Nat := 1
/-- Model of `os.O_CREATE`. -/
def O_CREATE : Nat := 64
/-- Model of `os.O_TRUNC`. -/
def O_TRUNC : Nat := 512

/-- Model of `io.SeekStart`. -/
def ioSeekStart : Nat := 0
/-- Model of `io.SeekCurrent`. -/
def ioSeekCurrent : Nat := 1
/-- Model of `io.SeekEnd`. -/
def ioSeekEnd : Nat := 2

/-- The prefix of `s` up to and including its last slash (empty if no
slash occurs): the directory part used for relative URL resolution. -/
def stripAfterLastSlash (s : String) : String :=
  ((s.toList.reverse.dropWhile (fun c => c != '/')).reverse).asString

/-- Model of `url.URL.Parse` resolving the reference `ref` against the
URL whose path is `base`: an absolute reference replaces the whole
path, a relative one replaces the last segment.  Parsing itself is
modelled as total; none of the verified claims concerns a malformed
URL. -/
def urlParseRel (base ref : String) : String :=
  if "/".isPrefixOf ref then ref else stripAfterLastSlash base ++ ref

/-- Model of `path.Dir`, used only as the argument of `os.MkdirAll`. -/
def pathDir (s : String) : String := stripAfterLastSlash s

/-- An open OS file: the path its descriptor refers to plus the current
offset.  (The model keys content by path; descriptor-after-unlink
subtleties do not arise in the verified claims.) -/
structure OsFile where
  path : String
  pos : Nat
deriving DecidableEq

/-- Model of `ContextRespectingIoFile`: it wraps a plain `os.File`,
exactly as in the source. -/
structure ContextRespectingIoFile where
  actualFile : OsFile
deriving DecidableEq

/-- Result of `os.File.Read` into a fresh buffer of length `len`
(the buffer `result.Data` that `asyncRead` allocates with `make`):
the advanced file, the buffer contents, the byte count and the error. -/
structure OsReadResult where
  file : OsFile
  data : List Nat
  n : Nat
  err : Option Err
deriving DecidableEq

/-- Model of `os.File.Read` with a buffer of length `len`: reads up to `len`
bytes from the current offset.  A fresh zeroed buffer is filled with
the bytes read; at end of file it reports `io.EOF` with count 0; a
zero-length buffer reads nothing successfully. -/
def osFileRead (fs : FS) (f : OsFile) (len : Nat) : OsReadResult :=
  let content := (fsGet fs f.path).getD []
  if len = 0 then ⟨f, [], 0, none⟩
  else
    let avail := content.length - f.pos
    if avail = 0 then ⟨f, List.replicate len 0, 0, some .eof⟩
    else
      let n := min len avail
      ⟨{ f with pos := f.pos + n },
        (content.drop f.pos).take n ++ List.replicate (len - n) 0, n, none⟩

/-- Result of `os.File.Write`. -/
structure OsWriteResult where
  fs : FS
  file : OsFile
  n : Nat
  err : Option Err
deriving DecidableEq

/-- Model of `os.File.Write`: writes all of `b` at the current offset,
overwriting bytes in place and extending the file as needed (a hole,
if the offset lies past the end, reads back as zero bytes). -/
def osFileWrite (fs : FS) (f : OsFile) (b : List Nat) : OsWriteResult :=
  let content := (fsGet fs f.path).getD []
  let padded := content ++ List.replicate (f.pos - content.length) 0
  let content2 := padded.take f.pos ++ b ++ padded.drop (f.pos + b.length)
  ⟨fsSet fs f.path content2, { f with pos := f.pos + b.length }, b.length, none⟩

/-- Result of `os.File.Seek`. -/
structure OsSeekResult where
  file : OsFile
  off : Int
  err : Option Err
deriving DecidableEq

/-- Model of `os.File.Seek`: computes the new absolute offset from `whence`
(start, current or end) and fails on a negative resulting offset. -/
def osFileSeek (fs : FS) (f : OsFile) (offset : Int) (whence : Nat) : OsSeekResult :=
  let base : Int :=
    if whence = ioSeekCurrent then (f.pos : Int)
    else if whence = ioSeekEnd then (((fsGet fs f.path).getD []).length : Int)
    else 0
  let npos := base + offset
  if npos < 0 then ⟨f, 0, some .invalidArg⟩
  else ⟨{ f with pos := npos.toNat }, npos, none⟩

/-- What `ContextRespectingIoFile.Read` gives back to the caller: the
return values `(l, err)`, the caller's buffer `p` after the call, and
the file as the background read leaves it. -/
structure ReadResult where
  bytesRead : Nat
  err : Option Err
  buffer : List Nat
  file : ContextRespectingIoFile
deriving DecidableEq

/-- Model of `ContextRespectingIoFile.Read`: `asyncRead` performs the blocking
read into a fresh buffer on a worker goroutine; the `select` either
observes cancellation — returning `(0, ctx.Err())` and leaving the
caller's buffer `p` untouched — or the result, in which case the data
is copied into `p` only when the read reported no error. -/
def ContextRespectingIoFile.Read (race : RaceOutcome) (fs : FS)
    (f : ContextRespectingIoFile) (p : List Nat) : ReadResult :=
  let r := osFileRead fs f.actualFile p.length
  match race with
  | .cancelled => ⟨0, some .cancelled, p, ⟨r.file⟩⟩
  | .completed =>
    ⟨r.n, r.err, if r.err = none then r.data else p, ⟨r.file⟩⟩

/-- What `ContextRespectingIoFile.Write` gives back: the return values
`(length, err)` plus the filesystem and file as the background write
leaves them (the write runs to completion even when cancelled). -/
structure WriteResult where
  bytesWritten : Nat
  err : Option Err
  fs : FS
  file : ContextRespectingIoFile
deriving DecidableEq

/-- Model of `ContextRespectingIoFile.Write`: the input is copied into a private
buffer `nb` (lists are values, so the copy is the identity here) and
written on a worker; cancellation returns `(0, ctx.Err())`. -/
def ContextRespectingIoFile.Write (race : RaceOutcome) (fs : FS)
    (f : ContextRespectingIoFile) (b : List Nat) : WriteResult :=
  let nb := b
  let r := osFileWrite fs f.actualFile nb
  match race with
  | .cancelled => ⟨0, some .cancelled, r.fs, ⟨r.file⟩⟩
  | .completed => ⟨r.n, r.err, r.fs, ⟨r.file⟩⟩

/-- Model of `ContextRespectingIoFile.Seek`: forwards to `os.File.Seek` with
`io.SeekStart`, ignoring both the context and the caller's `whence`
argument. -/
def ContextRespectingIoFile.Seek (ctx : RaceOutcome) (fs : FS)
    (f : ContextRespectingIoFile) (offset : Int) (whence : Nat) : OsSeekResult :=
  osFileSeek fs f.actualFile offset ioSeekStart

/-- Model of `ContextRespectingIoFile.Close`: `os.File.Close` on a worker
(closing never fails in the model), raced against the context. -/
def ContextRespectingIoFile.Close (race : RaceOutcome)
    (f : ContextRespectingIoFile) : Option Err :=
  match race with
  | .cancelled => some .cancelled
  | .completed => none

/-- Model of `os.MkdirAll`: the model tracks no directories, so recursive
directory creation always succeeds and changes nothing. -/
def osMkdirAll (fs : FS) (dir : String) : FS × Option Err := (fs, none)

/-- Model of `os.OpenFile` restricted to the flag combinations the adapter
uses: truncate an existing file when `O_TRUNC` is set, create a
missing one when `O_CREATE` is set, fail with `noEnt` otherwise.  The
returned handle starts at offset 0. -/
def osOpenFile (fs : FS) (path : String) (flag : Nat) : FS × Except Err OsFile :=
  match fsGet fs path with
  | some _ =>
    if flag &&& O_TRUNC ≠ 0 then (fsSet fs path [], .ok ⟨path, 0⟩)
    else (fs, .ok ⟨path, 0⟩)
  | none =>
    if flag &&& O_CREATE ≠ 0 then (fsSet fs path [], .ok ⟨path, 0⟩)
    else (fs, .error .noEnt)

/-- Model of `asyncOpenWrite`: `os.MkdirAll(path.Dir(fpath), 0755)` followed by
`os.OpenFile(fpath, flag, 0644)`, wrapping the handle on success. -/
def asyncOpenWrite (fs : FS) (fpath : String) (flag : Nat) :
    FS × Except Err ContextRespectingIoFile :=
  let m := osMkdirAll fs (pathDir fpath)
  match m.2 with
  | some e => (m.1, .error e)
  | none =>
    match osOpenFile m.1 fpath flag with
    | (fs2, .error e) => (fs2, .error e)
    | (fs2, .ok f) => (fs2, .ok ⟨f⟩)

/-- Model of `asyncOpenRead`: `os.Open`, wrapping the handle on success.
Opening for reading mutates nothing. -/
def asyncOpenRead (fs : FS) (path : String) : Except Err ContextRespectingIoFile :=
  match fsGet fs path with
  | some _ => .ok ⟨⟨path, 0⟩⟩
  | none => .error .noEnt

/-- Outcome of an open through the bridge: the filesystem as the
background worker leaves it, and the caller's result. -/
structure OpenResult where
  fs : FS
  res : Except Err ContextRespectingIoFile

/-- Model of `FileAdapter.OpenWriter`: runs `asyncOpenWrite` with
`os.O_WRONLY|os.O_CREATE|os.O_TRUNC` on a worker and races it against
the context; the worker's filesystem effect happens either way. -/
def FileAdapter.OpenWriter (race : RaceOutcome) (fs : FS) (fileurl : String) :
    OpenResult :=
  let r := asyncOpenWrite fs fileurl (O_WRONLY ||| O_CREATE ||| O_TRUNC)
  match race with
  | .cancelled => ⟨r.1, .error .cancelled⟩
  | .completed => ⟨r.1, r.2⟩

/-- Model of `FileAdapter.OpenAppender`: identical to `OpenWriter` in the
source — it also passes `os.O_WRONLY|os.O_CREATE|os.O_TRUNC` to
`asyncOpenWrite` (not an append flag). -/
def FileAdapter.OpenAppender (race : RaceOutcome) (fs : FS) (fileurl : String) :
    OpenResult :=
  let r := asyncOpenWrite fs fileurl (O_WRONLY ||| O_CREATE ||| O_TRUNC)
  match race with
  | .cancelled => ⟨r.1, .error .cancelled⟩
  | .completed => ⟨r.1, r.2⟩

/-- Model of `FileAdapter.OpenReader`: runs `asyncOpenRead` on a worker and
races it against the context. -/
def FileAdapter.OpenReader (race : RaceOutcome) (fs : FS) (fileurl : String) :
    Except Err ContextRespectingIoFile :=
  match race with
  | .cancelled => .error .cancelled
  | .completed => asyncOpenRead fs fileurl

/-- The round-trip pipeline of the spec: open-for-write at `purl`,
write `data`, close, open-for-read at `purl`, then read into a buffer
of length `data.length`, every step with a non-expiring context.
Returns the caller's buffer after the read, or the first error. -/
def roundTrip (fs : FS) (purl : String) (data : List Nat) : Except Err (List Nat) :=
  let o := FileAdapter.OpenWriter .completed fs purl
  match o.res with
  | .error e => .error e
  | .ok w =>
    let wr := ContextRespectingIoFile.Write .completed o.fs w data
    match wr.err with
    | some e => .error e
    | none =>
      match ContextRespectingIoFile.Close .completed wr.file with
      | some e => .error e
      | none =>
        match FileAdapter.OpenReader .completed wr.fs purl with
        | .error e => .error e
        | .ok r =>
          let rd := ContextRespectingIoFile.Read .completed wr.fs r
            (List.replicate data.length 0)
          match rd.err with
          | some e => .error e
          | none => .ok rd.buffer

/-! ## Change watcher (`file_watcher.go`) -/

/-- The part of `os.FileInfo` the watcher consults: `Mode()&ModeSymlink`
and `IsDir()`. -/
structure FileInfo where
  isSymlink : Bool
  isDir : Bool
deriving DecidableEq

/-- Model of `FileWatcher`: callback and watcher objects are left implicit; the
state the claims are about is the resolved root path and the shutdown
flag. -/
structure FileWatcher where
  path : String
  shutdown : Bool
deriving DecidableEq

/-- Externally visible actions of the watcher, in program order.
`addWatch` is `watcher.Add`; `initialCallback` is a `cb` invocation
during the initial scan, with `readerOk = false` when the fresh
reader failed to open (the callback then receives a nil handle);
`startLoop` is `go ret.watchForChanges()`; `dispatch` is the
asynchronous `go f.cb(...)` for a live event; `errChanSend` is a send
on `f.watcher.Errors`. -/
inductive WAction where
  | addWatch (path : String)
  | initialCallback (subject : String) (readerOk : Bool)
  | startLoop
  | dispatch (subject : String)
  | errChanSend
deriving DecidableEq

/-- The OS environment a watch setup runs against: whether
`fsnotify.NewWatcher` succeeds, the results of `os.Stat`,
`os.Readlink`, `watcher.Add`, directory enumeration (`os.Open` +
`Readdirnames`, collapsed into one result since both failures abort
setup identically) and of each `OpenReader` (`none` means the open
succeeded). -/
structure WatchEnv where
  newWatcherOk : Bool
  stat : String → Except Err FileInfo
  readlink : String → Except Err String
  addWatchOk : String → Bool
  readDir : String → Except Err (List String)
  openReader : String → Option Err

/-- Outcome of `NewFileWatcher`: the value or error it returns, the
trace of visible actions it performed, and resource accounting for the
fsnotify watcher: whether one was created and whether the constructor
closed it (the source never does). -/
structure WatchSetupResult where
  result : Except Err FileWatcher
  trace : List WAction
  watcherCreated : Bool
  watcherClosed : Bool

/-- The symlink-resolution loop of `NewFileWatcher`: while the stat
reports a symlink, read the link, resolve it against the current URL
and stat again.  The source has no cycle guard and can loop forever;
the model adds fuel, consumed only when a link is actually followed,
and reports `symlinkFuel` on exhaustion. -/
def resolveSymlinks (env : WatchEnv) : Nat → String → FileInfo →
    Except Err (String × FileInfo)
  | fuel, path, fi =>
    if fi.isSymlink = false then .ok (path, fi)
    else
      match fuel with
      | 0 => .error .symlinkFuel
      | fuel2 + 1 =>
        match env.readlink path with
        | .error e => .error e
        | .ok subpath =>
          let p2 := urlParseRel path subpath
          match env.stat p2 with
          | .error e => .error e
          | .ok fi2 => resolveSymlinks env fuel2 p2 fi2

/-- Model of `NewFileWatcher`: create the fsnotify watcher, stat the target,
resolve symlinks, register the watch with `watcher.Add`, then perform
the initial scan — for a directory, enumerate children and invoke the
callback once per child with a freshly opened reader, ignoring the
open's error; for a single file, open a reader (aborting on failure)
and invoke the callback once — and finally start the event loop.  No
failure path closes the already-created fsnotify watcher. -/
def NewFileWatcher (env : WatchEnv) (fuel : Nat) (path0 : String) :
    WatchSetupResult :=
  if env.newWatcherOk = false then ⟨.error .newWatcherFailed, [], false, false⟩
  else
    match env.stat path0 with
    | .error e => ⟨.error e, [], true, false⟩
    | .ok fi0 =>
      match resolveSymlinks env fuel path0 fi0 with
      | .error e => ⟨.error e, [], true, false⟩
      | .ok (path, fi) =>
        if env.addWatchOk path = false then ⟨.error .addWatchFailed, [], true, false⟩
        else if fi.isDir then
          match env.readDir path with
          | .error e => ⟨.error e, [.addWatch path], true, false⟩
          | .ok names =>
            let dpath := path ++ "/"
            ⟨.ok ⟨path, false⟩,
              .addWatch path ::
                (names.map fun n =>
                  WAction.initialCallback (urlParseRel dpath n)
                    (env.openReader (urlParseRel dpath n)).isNone) ++
                [.startLoop],
              true, false⟩
        else
          match env.openReader path with
          | some e => ⟨.error e, [.addWatch path], true, false⟩
          | none =>
            ⟨.ok ⟨path, false⟩,
              [.addWatch path, .initialCallback path true, .startLoop],
              true, false⟩

/-- Model of `fsnotify.Create`. -/
def fsnCreate : Nat := 1
/-- Model of `fsnotify.Write`. -/
def fsnWrite : Nat := 2
/-- Model of `fsnotify.Remove`. -/
def fsnRemove : Nat := 4
/-- Model of `fsnotify.Rename`. -/
def fsnRename : Nat := 8
/-- Model of `fsnotify.Chmod`. -/
def fsnChmod : Nat := 16

/-- A raw fsnotify event: the affected name and the bitmask of
operations. -/
structure Event where
  name : String
  op : Nat
deriving DecidableEq

/-- Environment for one loop iteration: the result of the
`OpenReader` for the event's resolved subject. -/
structure LoopEnv where
  openReader : String → Option Err

/-- One iteration of `watchForChanges` on a received event (the loop
re-checks the shutdown flag between iterations): if the event's
operation intersects `Write|Remove|Rename`, resolve its name against
the watch root and either dispatch the callback asynchronously with a
fresh reader or send the open error to the error channel; any other
event — in particular a bare `Create` — is dropped. -/
def watchForChangesStep (env : LoopEnv) (f : FileWatcher) (event : Event) :
    List WAction :=
  if event.op &&& (fsnWrite ||| fsnRemove ||| fsnRename) ≠ 0 then
    let subject := urlParseRel f.path event.name
    match env.openReader subject with
    | none => [.dispatch subject]
    | some _ => [.errChanSend]
  else []

/-- Environment for `Shutdown`: whether `watcher.Remove` and
`watcher.Close` succeed. -/
structure ShutdownEnv where
  removeOk : Bool
  closeOk : Bool
deriving DecidableEq

/-- Outcome of `Shutdown`: the watcher state afterwards, the returned
error, and whether `watcher.Remove` and `watcher.Close` were each
invoked. -/
structure ShutdownResult where
  w : FileWatcher
  err : Option Err
  removeCalled : Bool
  closeCalled : Bool
deriving DecidableEq

/-- Model of `FileWatcher.Shutdown`: set the shutdown flag, then
`watcher.Remove(f.path.Path)` — returning its error immediately when
it fails, without closing the watcher — and otherwise
`watcher.Close()`. -/
def FileWatcher.Shutdown (env : ShutdownEnv) (f : FileWatcher) : ShutdownResult :=
  let f2 := { f with shutdown := true }
  if env.removeOk = false then ⟨f2, some .removeFailed, true, false⟩
  else if env.closeOk = false then ⟨f2, some .closeFailed, true, true⟩
  else ⟨f2, none, true, true⟩

/-! ## Shared lemmas -/

theorem writeFlags_trunc : (O_WRONLY ||| O_CREATE ||| O_TRUNC) &&& O_TRUNC ≠ 0 := by
  decide

theorem writeFlags_create : (O_WRONLY ||| O_CREATE ||| O_TRUNC) &&& O_CREATE ≠ 0 := by
  decide

/-- Opening for write with a live context truncates (or creates) the
target and hands back a fresh handle at offset 0. -/
theorem openWriter_completed (fs : FS) (purl : String) :
    FileAdapter.OpenWriter .completed fs purl =
      ⟨fsSet fs purl [], .ok ⟨⟨purl, 0⟩⟩⟩ := by
  unfold FileAdapter.OpenWriter asyncOpenWrite osMkdirAll osOpenFile
  cases hg : fsGet fs purl with
  | none => simp [hg, writeFlags_create]
  | some c => simp [hg, writeFlags_trunc]

/-- Writing through the bridge on a fresh (truncated) handle stores
exactly the written bytes. -/
theorem write_completed_fresh (fs : FS) (purl : String) (data : List Nat) :
    ContextRespectingIoFile.Write .completed (fsSet fs purl []) ⟨⟨purl, 0⟩⟩ data =
      ⟨data.length, none, fsSet (fsSet fs purl []) purl data, ⟨⟨purl, data.length⟩⟩⟩ := by
  unfold ContextRespectingIoFile.Write osFileWrite
  simp [fsGet_fsSet_self]

/-- Reading a whole file through the bridge with a live context fills
the caller's buffer with exactly the file's content. -/
theorem read_completed_full (fs : FS) (purl : String) (data : List Nat)
    (h : fsGet fs purl = some data) :
    ContextRespectingIoFile.Read .completed fs ⟨⟨purl, 0⟩⟩
        (List.replicate data.length 0) =
      ⟨data.length, none, data, ⟨⟨purl, data.length⟩⟩⟩ := by
  unfold ContextRespectingIoFile.Read osFileRead
  cases data with
  | nil => simp [h]
  | cons b bs => simp [h]

/-! ## Claims -/

/-- C1: a Read or Write on a content handle whose context fires before
the OS call completes returns a byte count of 0 together with the
cancellation error, and Read leaves the caller's buffer unmodified —
for every file, buffer and filesystem state, i.e. regardless of what
the backgrounded OS call produces. -/
theorem read_write_cancelled (fs : FS) (f : ContextRespectingIoFile)
    (p b : List Nat) :
    (ContextRespectingIoFile.Read .cancelled fs f p).bytesRead = 0 ∧
    (ContextRespectingIoFile.Read .cancelled fs f p).err = some .cancelled ∧
    (ContextRespectingIoFile.Read .cancelled fs f p).buffer = p ∧
    (ContextRespectingIoFile.Write .cancelled fs f b).bytesWritten = 0 ∧
    (ContextRespectingIoFile.Write .cancelled fs f b).err = some .cancelled :=
  ⟨rfl, rfl, rfl, rfl, rfl⟩

/-- C2: open-for-write, write `data`, close, open-for-read, read with
a non-expiring deadline reproduces any non-empty `data` exactly
(bytes are opaque values, so NUL bytes are included). -/
theorem roundTrip_ok (fs : FS) (purl : String) (data : List Nat)
    (hne : data ≠ []) :
    roundTrip fs purl data = .ok data := by
  unfold roundTrip
  rw [openWriter_completed]
  simp only []
  rw [write_completed_fresh]
  simp only [ContextRespectingIoFile.Close, FileAdapter.OpenReader, asyncOpenRead,
    fsGet_fsSet_self]
  rw [read_completed_full _ _ _ (fsGet_fsSet_self _ _ _)]

theorem roundTrip_ok_witness :
    ([0, 65] : List Nat) ≠ [] ∧ roundTrip [] "f" [0, 65] = .ok [0, 65] :=
  ⟨by decide, roundTrip_ok [] "f" [0, 65] (by decide)⟩

/-- A 20-byte file and a fresh handle on it, for the concrete Seek
scenario of C4. -/
def seekFs : FS := [("f", List.replicate 20 7)]

def seekHandle : ContextRespectingIoFile := ⟨⟨"f", 0⟩⟩

/-- C4: Seek positions the file at the absolute (non-negative) offset
measured from the start, ignoring both the context and the `whence`
argument; concretely, Seek(10, fromCurrentPosition) after reading 5
bytes from offset 0 lands at absolute offset 10, not 15. -/
theorem seek_ignores_whence (ctx ctx2 : RaceOutcome) (fs : FS)
    (f : ContextRespectingIoFile) (offset : Int) (whence whence2 : Nat) :
    ContextRespectingIoFile.Seek ctx fs f offset whence =
      ContextRespectingIoFile.Seek ctx2 fs f offset whence2 ∧
    (0 ≤ offset →
      (ContextRespectingIoFile.Seek ctx fs f offset whence).file.pos = offset.toNat ∧
      (ContextRespectingIoFile.Seek ctx fs f offset whence).err = none) ∧
    ((ContextRespectingIoFile.Read .completed seekFs seekHandle
        (List.replicate 5 0)).file.actualFile.pos = 5 ∧
      (ContextRespectingIoFile.Seek .completed seekFs
        (ContextRespectingIoFile.Read .completed seekFs seekHandle
          (List.replicate 5 0)).file 10 ioSeekCurrent).file.pos = 10) := by
  refine ⟨rfl, ?_, by decide⟩
  intro h
  unfold ContextRespectingIoFile.Seek osFileSeek
  simp only [ioSeekStart, ioSeekCurrent, ioSeekEnd]
  norm_num
  rw [if_neg (show ¬ offset < 0 by omega)]
  exact ⟨rfl, rfl⟩

theorem seek_ignores_whence_witness :
    (0 : Int) ≤ 3 ∧
    (ContextRespectingIoFile.Seek .completed seekFs seekHandle 3 ioSeekCurrent).file.pos
      = (3 : Int).toNat :=
  ⟨by decide,
    ((seek_ignores_whence .completed .completed seekFs seekHandle 3
      ioSeekCurrent ioSeekCurrent).2.1 (by decide)).1⟩

/-- C5: open-for-append passes the very same
`O_WRONLY|O_CREATE|O_TRUNC` flag as open-for-write, so the two are
identical for every context, filesystem and URL, and opening a file
with existing content for append truncates it to empty. -/
theorem openAppender_eq_openWriter (race : RaceOutcome) (fs : FS)
    (fileurl : String) (c : List Nat) :
    FileAdapter.OpenAppender race fs fileurl =
      FileAdapter.OpenWriter race fs fileurl ∧
    fsGet (FileAdapter.OpenAppender .completed (fsSet fs fileurl c) fileurl).fs
      fileurl = some [] := by
  constructor
  · rfl
  · have h : FileAdapter.OpenAppender .completed (fsSet fs fileurl c) fileurl =
        FileAdapter.OpenWriter .completed (fsSet fs fileurl c) fileurl := rfl
    rw [h, openWriter_completed]
    exact fsGet_fsSet_self _ _ _

/-- C7: the watch loop reacts only to events whose operation bitmask
intersects `Write|Remove|Rename`; any other event — in particular a
bare `Create` — produces no dispatch, no re-open and no error
report. -/
theorem watchStep_filters (env : LoopEnv) (f : FileWatcher) (e : Event)
    (h : e.op &&& (fsnWrite ||| fsnRemove ||| fsnRename) = 0) :
    watchForChangesStep env f e = [] := by
  unfold watchForChangesStep
  simp [h]

theorem watchStep_filters_witness :
    (⟨"/d/x", fsnCreate⟩ : Event).op &&& (fsnWrite ||| fsnRemove ||| fsnRename) = 0 ∧
    watchForChangesStep ⟨fun _ => none⟩ ⟨"/d", false⟩ ⟨"/d/x", fsnCreate⟩ = [] :=
  ⟨by decide, watchStep_filters ⟨fun _ => none⟩ ⟨"/d", false⟩ ⟨"/d/x", fsnCreate⟩
    (by decide)⟩

/-- An environment in which `fsnotify.NewWatcher` succeeds and the
subsequent `os.Stat` fails: the failure path of C8. -/
def envStatFails : WatchEnv where
  newWatcherOk := true
  stat := fun _ => .error .statFailed
  readlink := fun _ => .error .readlinkFailed
  addWatchOk := fun _ => true
  readDir := fun _ => .error .readDirFailed
  openReader := fun _ => none

/-- C8 (code bug): when stat fails right after the fsnotify watcher
was created, `NewFileWatcher` returns the error synchronously but the
already-created OS watch handle is never closed — no failure path of
the constructor closes it, contradicting the spec's resource-release
requirement. -/
theorem setup_failure_leaks_watcher :
    (NewFileWatcher envStatFails 0 "/p").result = .error .statFailed ∧
    (NewFileWatcher envStatFails 0 "/p").watcherCreated = true ∧
    (NewFileWatcher envStatFails 0 "/p").watcherClosed = false :=
  ⟨rfl, rfl, rfl⟩

/-- C9 counterexample: when `watcher.Remove` fails, `Shutdown` returns
its error without ever invoking `watcher.Close`, so the OS watch
resource is still held after Shutdown completes — refuting the claim
that release happens even when an intermediate step errors. -/
theorem shutdown_remove_error_keeps_watcher :
    (FileWatcher.Shutdown ⟨false, true⟩ ⟨"/p", false⟩).w.shutdown = true ∧
    (FileWatcher.Shutdown ⟨false, true⟩ ⟨"/p", false⟩).err = some .removeFailed ∧
    (FileWatcher.Shutdown ⟨false, true⟩ ⟨"/p", false⟩).closeCalled = false :=
  ⟨rfl, rfl, rfl⟩

/-- C9 (amended): Shutdown always sets the shutdown flag and attempts
to deregister the OS watch; when deregistration succeeds the watch
resource is closed, but when deregistration fails Shutdown returns
that error and the watch resource is not released. -/
theorem shutdown_behaviour (f : FileWatcher) (cOk : Bool) :
    (FileWatcher.Shutdown ⟨true, cOk⟩ f).w.shutdown = true ∧
    (FileWatcher.Shutdown ⟨true, cOk⟩ f).removeCalled = true ∧
    (FileWatcher.Shutdown ⟨true, cOk⟩ f).closeCalled = true ∧
    (FileWatcher.Shutdown ⟨false, cOk⟩ f).w.shutdown = true ∧
    (FileWatcher.Shutdown ⟨false, cOk⟩ f).err = some .removeFailed ∧
    (FileWatcher.Shutdown ⟨false, cOk⟩ f).closeCalled = false := by
  cases cOk <;> exact ⟨rfl, rfl, rfl, rfl, rfl, rfl⟩

/-- A successful watch setup on a plain (non-symlink) directory:
registration, then one callback per enumerated child with the
open-result of its fresh reader, then the live loop. -/
theorem newFileWatcher_dir (env : WatchEnv) (fuel : Nat) (root : String)
    (names : List String)
    (hw : env.newWatcherOk = true)
    (hs : env.stat root = .ok ⟨false, true⟩)
    (ha : env.addWatchOk root = true)
    (hd : env.readDir root = .ok names) :
    NewFileWatcher env fuel root =
      ⟨.ok ⟨root, false⟩,
        .addWatch root ::
          (names.map fun n =>
            WAction.initialCallback (urlParseRel (root ++ "/") n)
              (env.openReader (urlParseRel (root ++ "/") n)).isNone) ++
          [.startLoop],
        true, false⟩ := by
  unfold NewFileWatcher
  rw [hs]
  unfold resolveSymlinks
  simp [hw, ha, hd]

/-- A successful watch setup on a plain single file: registration, one
callback with a good reader, then the live loop. -/
theorem newFileWatcher_file (env : WatchEnv) (fuel : Nat) (root : String)
    (hw : env.newWatcherOk = true)
    (hs : env.stat root = .ok ⟨false, false⟩)
    (ha : env.addWatchOk root = true)
    (hr : env.openReader root = none) :
    NewFileWatcher env fuel root =
      ⟨.ok ⟨root, false⟩,
        [.addWatch root, .initialCallback root true, .startLoop],
        true, false⟩ := by
  unfold NewFileWatcher
  rw [hs]
  unfold resolveSymlinks
  simp [hw, ha, hr]

/-- C3: whenever `NewFileWatcher` succeeds, the very first visible
action of the setup is the OS-level watch registration on the resolved
concrete path — strictly before any initial-scan callback and before
the live loop starts. -/
theorem watch_registered_before_scan (env : WatchEnv) (fuel : Nat) (p0 : String)
    (w : FileWatcher)
    (h : (NewFileWatcher env fuel p0).result = .ok w) :
    (NewFileWatcher env fuel p0).trace.head? = some (.addWatch w.path) := by
  suffices hs : ∀ R : WatchSetupResult, NewFileWatcher env fuel p0 = R →
      R.result = .ok w → R.trace.head? = some (.addWatch w.path) from
    hs _ rfl h
  intro R hR hres
  unfold NewFileWatcher at hR
  repeat' split at hR
  all_goals subst hR
  all_goals simp_all
  all_goals simp [← hres]

/-- An environment describing a single plain file at `/f`. -/
def envPlainFile : WatchEnv where
  newWatcherOk := true
  stat := fun _ => .ok ⟨false, false⟩
  readlink := fun _ => .error .readlinkFailed
  addWatchOk := fun _ => true
  readDir := fun _ => .error .readDirFailed
  openReader := fun _ => none

theorem watch_registered_before_scan_witness :
    (NewFileWatcher envPlainFile 0 "/f").result = .ok ⟨"/f", false⟩ ∧
    (NewFileWatcher envPlainFile 0 "/f").trace.head? =
      some (.addWatch (⟨"/f", false⟩ : FileWatcher).path) :=
  ⟨rfl, watch_registered_before_scan envPlainFile 0 "/f" ⟨"/f", false⟩ rfl⟩

/-- C6: setting up a watch on a plain directory whose children all
open successfully succeeds and invokes the callback exactly once per
enumerated immediate child, with a good fresh reader, all strictly
before the live-event loop starts; on a plain single file the callback
is invoked exactly once the same way. -/
theorem initial_scan_callbacks (env env2 : WatchEnv) (fuel fuel2 : Nat)
    (root root2 : String) (names : List String)
    (hw : env.newWatcherOk = true)
    (hs : env.stat root = .ok ⟨false, true⟩)
    (ha : env.addWatchOk root = true)
    (hd : env.readDir root = .ok names)
    (hr : ∀ n ∈ names, env.openReader (urlParseRel (root ++ "/") n) = none)
    (hw2 : env2.newWatcherOk = true)
    (hs2 : env2.stat root2 = .ok ⟨false, false⟩)
    (ha2 : env2.addWatchOk root2 = true)
    (hr2 : env2.openReader root2 = none) :
    (NewFileWatcher env fuel root).result = .ok ⟨root, false⟩ ∧
    (NewFileWatcher env fuel root).trace =
      .addWatch root ::
        (names.map fun n =>
          WAction.initialCallback (urlParseRel (root ++ "/") n) true) ++
        [.startLoop] ∧
    (NewFileWatcher env2 fuel2 root2).trace =
      [.addWatch root2, .initialCallback root2 true, .startLoop] := by
  rw [newFileWatcher_dir env fuel root names hw hs ha hd,
    newFileWatcher_file env2 fuel2 root2 hw2 hs2 ha2 hr2]
  refine ⟨rfl, ?_, rfl⟩
  have hmap : (names.map fun n =>
      WAction.initialCallback (urlParseRel (root ++ "/") n)
        (env.openReader (urlParseRel (root ++ "/") n)).isNone) =
      names.map fun n =>
        WAction.initialCallback (urlParseRel (root ++ "/") n) true := by
    refine List.map_congr_left fun n hn => ?_
    rw [hr n hn]
    rfl
  rw [hmap]

/-- An environment describing a plain directory `/d` with the two
children of the spec's example, both readable. -/
def envTwoFileDir : WatchEnv where
  newWatcherOk := true
  stat := fun p => if p = "/d" then .ok ⟨false, true⟩ else .error .statFailed
  readlink := fun _ => .error .readlinkFailed
  addWatchOk := fun _ => true
  readDir := fun p => if p = "/d" then .ok ["a.txt", "b.txt"] else .error .readDirFailed
  openReader := fun _ => none

theorem initial_scan_callbacks_witness :
    (NewFileWatcher envTwoFileDir 0 "/d").result = .ok ⟨"/d", false⟩ ∧
    (NewFileWatcher envTwoFileDir 0 "/d").trace =
      .addWatch "/d" ::
        (["a.txt", "b.txt"].map fun n =>
          WAction.initialCallback (urlParseRel ("/d" ++ "/") n) true) ++
        [.startLoop] ∧
    (NewFileWatcher envPlainFile 1 "/f").trace =
      [.addWatch "/f", .initialCallback "/f" true, .startLoop] :=
  initial_scan_callbacks envTwoFileDir envPlainFile 0 1 "/d" "/f"
    ["a.txt", "b.txt"] rfl rfl rfl rfl (by intro n hn; rfl) rfl rfl rfl rfl

/-- C10: during the initial directory scan the result of opening a
child's reader is never examined — setup still succeeds, the callback
is invoked for the failing child with a nil handle, and the open error
is neither returned from the constructor nor sent to the error
channel. -/
theorem initial_scan_ignores_open_error (env : WatchEnv) (fuel : Nat)
    (root n : String) (names : List String) (e : Err)
    (hw : env.newWatcherOk = true)
    (hs : env.stat root = .ok ⟨false, true⟩)
    (ha : env.addWatchOk root = true)
    (hd : env.readDir root = .ok names)
    (hn : n ∈ names)
    (hr : env.openReader (urlParseRel (root ++ "/") n) = some e) :
    (NewFileWatcher env fuel root).result = .ok ⟨root, false⟩ ∧
    WAction.initialCallback (urlParseRel (root ++ "/") n) false ∈
      (NewFileWatcher env fuel root).trace ∧
    WAction.errChanSend ∉ (NewFileWatcher env fuel root).trace := by
  rw [newFileWatcher_dir env fuel root names hw hs ha hd]
  refine ⟨rfl, ?_, ?_⟩
  · have hmem := List.mem_map_of_mem
      (fun m => WAction.initialCallback (urlParseRel (root ++ "/") m)
        (env.openReader (urlParseRel (root ++ "/") m)).isNone) hn
    simp only [hr, Option.isNone_some] at hmem
    exact List.mem_cons_of_mem _ (List.mem_append_left _ hmem)
  · simp

/-- Like `envTwoFileDir`, but every child reader fails to open. -/
def envDirBadChild : WatchEnv where
  newWatcherOk := true
  stat := fun p => if p = "/d" then .ok ⟨false, true⟩ else .error .statFailed
  readlink := fun _ => .error .readlinkFailed
  addWatchOk := fun _ => true
  readDir := fun p => if p = "/d" then .ok ["a.txt"] else .error .readDirFailed
  openReader := fun _ => some .openFailed

theorem initial_scan_ignores_open_error_witness :
    (NewFileWatcher envDirBadChild 0 "/d").result = .ok ⟨"/d", false⟩ ∧
    WAction.initialCallback (urlParseRel ("/d" ++ "/") "a.txt") false ∈
      (NewFileWatcher envDirBadChild 0 "/d").trace ∧
    WAction.errChanSend ∉ (NewFileWatcher envDirBadChild 0 "/d").trace :=
  initial_scan_ignores_open_error envDirBadChild 0 "/d" "a.txt" ["a.txt"]
    .openFailed rfl rfl rfl rfl (by simp) rfl

end FilesystemFile
